import Mathlib

/-!
# Verification of the y-generic protocol coordinator

A shallow embedding of `GenericProvider` and `PubSubChannel` from
`src/dist/index.js` of the `y-generic` repository, together with theorems
about sequence tracking, hash-mismatch backoff, rate limiting, the synced
flag, timer cancellation, `syncNow`, `connect` failure, pub/sub dispatch
and local sequence stamping.

The externally owned Yjs document engine is modelled as an abstract
`DocEngine` record of total functions; the provider's own state and logic
are translated line by line from the source.
-/

namespace YGeneric

/-- Byte sequences (`Uint8Array`) are modelled as lists of naturals. -/
abbrev Bytes := List Nat

/-- Wrap an integer to a signed 32-bit value, as JavaScript's `| 0` does. -/
def toInt32 (n : Int) : Int := (n + 2 ^ 31) % 2 ^ 32 - 2 ^ 31

/-- One step of the rolling hash: `hash = ((hash << 5) - hash + byte) | 0`.
`hash << 5` is itself a 32-bit operation in JavaScript. -/
def hashStep (h : Int) (b : Nat) : Int := toInt32 (toInt32 (h * 32) - h + b)

/-- `computeDocHash` from `src/dist/index.js` (lines 16-23): a fast
non-cryptographic hash over the serialized document state. The document is
modelled by its encoded state, so `Y.encodeStateAsUpdate(doc)` is the
identity here. -/
def computeDocHash (state : Bytes) : Int := state.foldl hashStep 0

/-- The externally owned document engine (Yjs), consumed as an abstract
capability: apply an update, encode a state vector, compute the update
missing relative to a state vector, merge two updates. The document is
identified with its encoded state (`Bytes`). -/
structure DocEngine where
  applyUpdate : Bytes → Bytes → Bytes
  encodeStateVector : Bytes → Bytes
  encodeUpdateSince : Bytes → Bytes → Bytes
  mergeUpdates : Bytes → Bytes → Bytes

/-- The message type returned by `syncProtocol.readSyncMessage`. -/
inductive SyncMsgType
  | step1
  | step2
  | update
deriving DecidableEq, Repr

/-- A decoded y-protocols sync payload: SyncStep1 carries a state vector,
SyncStep2 and Update carry document updates. -/
inductive SyncPayload
  | step1 (sv : Bytes)
  | step2 (u : Bytes)
  | update (u : Bytes)
deriving DecidableEq, Repr

/-- `syncProtocol.readSyncMessage`: reads one sync message, possibly
mutating the document (SyncStep2 and Update apply their update) and
possibly producing a reply (SyncStep1 is answered with a SyncStep2
carrying the updates the requester is missing). Returns the new document
state, the optional reply payload, and the message type read. -/
def readSyncMessage (E : DocEngine) (doc : Bytes) :
    SyncPayload → Bytes × Option SyncPayload × SyncMsgType
  | .step1 sv => (doc, some (.step2 (E.encodeUpdateSince doc sv)), .step1)
  | .step2 u => (E.applyUpdate doc u, none, .step2)
  | .update u => (E.applyUpdate doc u, none, .update)

/-- Connection status (`_status` field): one of
disconnected / connecting / connected / error. -/
inductive Status
  | disconnected
  | connecting
  | connected
  | error (msg : String)
deriving DecidableEq, Repr

/-- A decoded inbound frame, by message type tag:
0 = SYNC, 1 = AWARENESS, 2 = PUBSUB, 3 = SYNC_VERIFIED. -/
inductive InMessage
  | sync (p : SyncPayload)
  | awareness (payload : Bytes)
  | pubsub (topic : String) (payload : Bytes)
  | syncVerified (seqNum : Nat) (sender : Nat) (p : SyncPayload) (expectedHash : Int)
  | unknown (tag : Nat)
deriving DecidableEq, Repr

/-- A frame handed to `transport.send`. -/
inductive OutMessage
  | sync (p : SyncPayload)
  | syncVerified (seqNum : Nat) (sender : Nat) (p : SyncPayload) (hash : Int)
  | awareness (clients : List Nat)
  | pubsub (topic : String) (payload : Bytes)
deriving DecidableEq, Repr

/-- Log/warning events emitted on the console by the provider. -/
inductive LogEvent
  | duplicateSeq (sender : Nat) (seqNum : Nat) (lastSeen : Int)
  | seqGap (sender : Nat) (gap : Int)
  | hashMismatch (count : Nat) (delay : Nat)
  | rateLimited
  | notConnectedWarn
  | unknownType (tag : Nat)
deriving DecidableEq, Repr

/-- `_maxSyncRequestsPerWindow` (line 126): max resync requests per window. -/
def maxSyncRequestsPerWindow : Nat := 20

/-- `_syncRequestWindowMs` (line 127): the sliding rate-limit window. -/
def syncRequestWindowMs : Nat := 10000

/-- The mutable state of one `GenericProvider` instance, one field per
mutable field of the class. Timer handles become booleans (armed or not);
the backoff `setTimeout` calls at line 435, whose handles the source never
stores, become the list `pendingBackoffTimers` of scheduled delays: an
entry is a callback that will fire unless removed. -/
structure ProviderState where
  status : Status
  synced : Bool
  destroying : Bool
  hashMismatchCount : Nat
  lastHashMismatchTime : Nat
  syncRequestTimes : List Nat
  localSeqNum : Nat
  remoteSeqNums : List (Nat × Nat)
  pendingUpdate : Option Bytes
  batchTimerArmed : Bool
  syncIntervalArmed : Bool
  pendingBackoffTimers : List Nat
  transportConnected : Bool
  transportSubscribed : Bool
  doc : Bytes
  clientID : Nat
  syncInterval : Nat
  verifyUpdates : Bool
  batchUpdates : Nat
deriving DecidableEq, Repr

/-- The recognized options of the constructor, with their defaults:
`syncInterval = 5000`, `verifyUpdates = true`, `batchUpdates = 0`. -/
structure ProviderOptions where
  syncInterval : Nat
  verifyUpdates : Bool
  batchUpdates : Nat
deriving DecidableEq, Repr

/-- The option defaults (lines 138-140). -/
def defaultOptions : ProviderOptions where
  syncInterval := 5000
  verifyUpdates := true
  batchUpdates := 0

/-- The state right after the constructor (lines 116-143), with the given
document, client id and options. -/
def initState (doc : Bytes) (cid : Nat) (opts : ProviderOptions) : ProviderState where
  status := .disconnected
  synced := false
  destroying := false
  hashMismatchCount := 0
  lastHashMismatchTime := 0
  syncRequestTimes := []
  localSeqNum := 0
  remoteSeqNums := []
  pendingUpdate := none
  batchTimerArmed := false
  syncIntervalArmed := false
  pendingBackoffTimers := []
  transportConnected := false
  transportSubscribed := false
  doc := doc
  clientID := cid
  syncInterval := opts.syncInterval
  verifyUpdates := opts.verifyUpdates
  batchUpdates := opts.batchUpdates

/-- `this._remoteSeqNums.get(senderClientID) ?? -1` (line 399). -/
def getSeq (m : List (Nat × Nat)) (k : Nat) : Int :=
  match m.lookup k with
  | some v => (v : Int)
  | none => -1

/-- `this._remoteSeqNums.set(senderClientID, seqNum)` (line 411): a later
entry shadows an earlier one under `List.lookup`. -/
def setSeq (m : List (Nat × Nat)) (k v : Nat) : List (Nat × Nat) :=
  (k, v) :: m

/-- `_send` (lines 566-582): hands the frame to the transport only when
`transport.isConnected`; otherwise it is silently dropped. -/
def sendRaw (s : ProviderState) (m : OutMessage) : List OutMessage :=
  if s.transportConnected then [m] else []

/-- `_sendUpdate` (lines 490-509). With verification enabled the frame is
stamped with the post-incremented local sequence number, the client id and
the hash of the current (post-update) document state; otherwise a plain
SYNC update is sent. This method calls `transport.send` directly, with no
connectivity check. -/
def sendUpdate (s : ProviderState) (update : Bytes) :
    ProviderState × List OutMessage :=
  if s.verifyUpdates then
    ({ s with localSeqNum := s.localSeqNum + 1 },
     [.syncVerified s.localSeqNum s.clientID (.update update) (computeDocHash s.doc)])
  else
    (s, [.sync (.update update)])

/-- `_sendSyncStep1` (lines 468-485): prune request timestamps that have
left the sliding window (`now - t < windowMs` is kept), drop with a warning
when the window already holds `maxSyncRequestsPerWindow` requests, else
record the timestamp and send a plain SYNC SyncStep1 frame. -/
def sendSyncStep1 (E : DocEngine) (now : Nat) (s : ProviderState) :
    ProviderState × List OutMessage × List LogEvent :=
  let times := s.syncRequestTimes.filter fun t : Nat => (now : Int) - (t : Int) < (syncRequestWindowMs : Int)
  if maxSyncRequestsPerWindow ≤ times.length then
    ({ s with syncRequestTimes := times }, [], [.rateLimited])
  else
    let s1 := { s with syncRequestTimes := times ++ [now] }
    (s1, sendRaw s1 (.sync (.step1 (E.encodeStateVector s.doc))), [])

/-- `_broadcastAwareness` (lines 555-562): nothing for an empty client
list, otherwise one AWARENESS frame through `_send`. -/
def broadcastAwareness (s : ProviderState) (clients : List Nat) : List OutMessage :=
  if clients.length = 0 then [] else sendRaw s (.awareness clients)

/-- `_handleIncomingMessage` (lines 350-461), on an already decoded frame.
Returns the new provider state, the frames sent in reply, and the console
warnings produced. -/
def handleIncomingMessage (E : DocEngine) (now : Nat) (s : ProviderState)
    (m : InMessage) : ProviderState × List OutMessage × List LogEvent :=
  match m with
  | .sync p =>
    let r := readSyncMessage E s.doc p
    let s1 := { s with doc := r.1 }
    let s2 := if r.2.2 = .step2 ∧ ¬ s1.synced then { s1 with synced := true } else s1
    let outs := match r.2.1 with
      | some reply => sendRaw s2 (.sync reply)
      | none => []
    (s2, outs, [])
  | .awareness _ => (s, [], [])
  | .pubsub _ _ => (s, [], [])
  | .syncVerified seqNum sender p expectedHash =>
    let lastSeq := getSeq s.remoteSeqNums sender
    if (seqNum : Int) ≤ lastSeq then
      (s, [], [.duplicateSeq sender seqNum lastSeq])
    else
      let gapLogs : List LogEvent :=
        if 0 ≤ lastSeq ∧ lastSeq + 1 < (seqNum : Int) then
          [.seqGap sender ((seqNum : Int) - lastSeq - 1)]
        else []
      let s1 := { s with remoteSeqNums := setSeq s.remoteSeqNums sender seqNum }
      let r := readSyncMessage E s1.doc p
      let s2 := { s1 with doc := r.1 }
      let localHash := computeDocHash r.1
      if localHash ≠ expectedHash then
        let c1 := s2.hashMismatchCount + 1
        let c := if (10000 : Int) < (now : Int) - (s2.lastHashMismatchTime : Int) then 1 else c1
        let delay := min 10000 (10 * 5 ^ (c - 1))
        let s3 := { s2 with
          hashMismatchCount := c
          lastHashMismatchTime := now
          pendingBackoffTimers := s2.pendingBackoffTimers ++ [delay] }
        let outs := match r.2.1 with
          | some reply => sendRaw s3 (.sync reply)
          | none => []
        (s3, outs, gapLogs ++ [.hashMismatch c delay])
      else
        let s3 := { s2 with hashMismatchCount := 0 }
        let s4 := if r.2.2 = .step2 ∧ ¬ s3.synced then { s3 with synced := true } else s3
        let outs := match r.2.1 with
          | some reply => sendRaw s4 (.sync reply)
          | none => []
        (s4, outs, gapLogs)
  | .unknown tag => (s, [], [.unknownType tag])

/-- `syncNow` (lines 263-278): warn and return when not connected; else
push the full encoded document state (when non-empty) as an update, issue a
resync request and rebroadcast local presence. -/
def syncNow (E : DocEngine) (now : Nat) (s : ProviderState) :
    ProviderState × List OutMessage × List LogEvent :=
  if ¬ s.transportConnected then (s, [], [.notConnectedWarn])
  else
    let update := s.doc
    let r1 := if 0 < update.length then sendUpdate s update else (s, [])
    let r2 := sendSyncStep1 E now r1.1
    let o3 := broadcastAwareness r2.1 [r2.1.clientID]
    (r2.1, r1.2 ++ r2.2.1 ++ o3, r2.2.2)

/-- `disconnect` (lines 188-209): stop the periodic sync timer, clear the
batch timer and its pending update, unsubscribe from the transport, mark
the local replica absent (one last presence broadcast, still connected),
disconnect the transport, reset `synced` and set status disconnected. The
backoff `setTimeout` handles were never stored, so `pendingBackoffTimers`
is untouched. -/
def disconnect (s : ProviderState) : ProviderState × List OutMessage :=
  let s1 := { s with
    syncIntervalArmed := false
    batchTimerArmed := false
    pendingUpdate := if s.batchTimerArmed then none else s.pendingUpdate
    transportSubscribed := false }
  let awarenessOut := broadcastAwareness s1 [s1.clientID]
  ({ s1 with
      transportConnected := false
      synced := false
      status := .disconnected },
   awarenessOut)

/-- `destroy` (lines 214-240): set the destroying flag, clear the timers,
then run `disconnect`. -/
def destroy (s : ProviderState) : ProviderState × List OutMessage :=
  let s1 := { s with
    destroying := true
    syncIntervalArmed := false
    batchTimerArmed := false
    pendingUpdate := if s.batchTimerArmed then none else s.pendingUpdate }
  disconnect s1

/-- The outcome of the single `transport.connect(config)` call. -/
inductive ConnectOutcome
  | ok
  | failure (e : String)
deriving DecidableEq, Repr

/-- `connect` (lines 149-183): throw when destroying; set status
connecting; on transport failure set status error and rethrow; on success
subscribe to the transport, set status connected, send SyncStep1,
broadcast awareness and arm the periodic sync timer when
`syncInterval > 0`. The transport is consulted exactly once: the single
`outcome` argument is the result of that one call, and the failure branch
returns without any further attempt. -/
def connect (E : DocEngine) (now : Nat) (s : ProviderState)
    (outcome : ConnectOutcome) :
    ProviderState × List OutMessage × List LogEvent × Except String Unit :=
  if s.destroying then (s, [], [], .error "Provider is being destroyed")
  else
    let s0 := { s with status := .connecting }
    match outcome with
    | .failure e => ({ s0 with status := .error e }, [], [], .error e)
    | .ok =>
      let s1 := { s0 with
        transportConnected := true
        transportSubscribed := true
        status := .connected }
      let r2 := sendSyncStep1 E now s1
      let o3 := broadcastAwareness r2.1 [r2.1.clientID]
      let s3 := if 0 < r2.1.syncInterval then { r2.1 with syncIntervalArmed := true } else r2.1
      (s3, r2.2.1 ++ o3, r2.2.2, .ok ())

/-- The document `update` handler (lines 284-300) for a locally
originating update (origin not this provider): the document has already
incorporated the update when the event fires; batch mode merges it into
the pending buffer and (re)arms the debounce timer, immediate mode sends
right away. -/
def localUpdate (E : DocEngine) (s : ProviderState) (u : Bytes) :
    ProviderState × List OutMessage :=
  let s0 := { s with doc := E.applyUpdate s.doc u }
  if 0 < s0.batchUpdates then
    let pending := match s0.pendingUpdate with
      | some p => E.mergeUpdates p u
      | none => u
    ({ s0 with pendingUpdate := some pending, batchTimerArmed := true }, [])
  else
    sendUpdate s0 u

/-- The batch debounce timer callback (lines 319-325): sends the pending
update, if any, and disarms. Fires only while the timer is armed. -/
def batchFire (s : ProviderState) : ProviderState × List OutMessage :=
  if s.batchTimerArmed then
    match s.pendingUpdate with
    | some p =>
      sendUpdate { s with pendingUpdate := none, batchTimerArmed := false } p
    | none => ({ s with batchTimerArmed := false }, [])
  else (s, [])

/-- The periodic sync interval callback (lines 169-173): while armed,
sends SyncStep1 when the transport is connected and not destroying. -/
def intervalTick (E : DocEngine) (now : Nat) (s : ProviderState) :
    ProviderState × List OutMessage × List LogEvent :=
  if s.syncIntervalArmed then
    if s.transportConnected ∧ ¬ s.destroying then sendSyncStep1 E now s
    else (s, [], [])
  else (s, [], [])

/-- A pending backoff timer (scheduled at line 435) fires: its callback is
`() => this._sendSyncStep1()`. Firing removes it from the pending list. -/
def backoffFire (E : DocEngine) (now : Nat) (s : ProviderState) :
    ProviderState × List OutMessage × List LogEvent :=
  match s.pendingBackoffTimers with
  | [] => (s, [], [])
  | _ :: rest => sendSyncStep1 E now { s with pendingBackoffTimers := rest }

/-- The events a provider instance can experience after construction. -/
inductive Event
  | incoming (now : Nat) (m : InMessage)
  | localUpdate (u : Bytes)
  | batchFire
  | intervalTick (now : Nat)
  | backoffFire (now : Nat)
  | syncNowEv (now : Nat)
  | connectEv (now : Nat) (outcome : ConnectOutcome)
  | disconnectEv
  | destroyEv
deriving DecidableEq, Repr

/-- One step of the provider state machine. -/
def step (E : DocEngine) (s : ProviderState) :
    Event → ProviderState × List OutMessage × List LogEvent
  | .incoming now m => handleIncomingMessage E now s m
  | .localUpdate u =>
    let r := localUpdate E s u
    (r.1, r.2, [])
  | .batchFire =>
    let r := batchFire s
    (r.1, r.2, [])
  | .intervalTick now => intervalTick E now s
  | .backoffFire now => backoffFire E now s
  | .syncNowEv now => syncNow E now s
  | .connectEv now outcome =>
    let r := connect E now s outcome
    (r.1, r.2.1, r.2.2.1)
  | .disconnectEv =>
    let r := disconnect s
    (r.1, r.2, [])
  | .destroyEv =>
    let r := destroy s
    (r.1, r.2, [])

/-- Run a list of events, collecting every frame handed to the transport. -/
def run (E : DocEngine) (s : ProviderState) :
    List Event → ProviderState × List OutMessage
  | [] => (s, [])
  | e :: es =>
    let r1 := step E s e
    let r2 := run E r1.1 es
    (r2.1, r1.2.1 ++ r2.2)

/-- A concrete document engine for witnesses: apply and merge concatenate,
the state vector is the state itself, the missing update is the state. -/
def E0 : DocEngine where
  applyUpdate := fun d u => d ++ u
  encodeStateVector := fun d => d
  encodeUpdateSince := fun d _ => d
  mergeUpdates := fun p u => p ++ u

/-- A freshly constructed provider over an empty document whose transport
has been connected. -/
def connState : ProviderState :=
  { initState [] 42 defaultOptions with transportConnected := true }

/-- Repeat `_sendSyncStep1` `n` times at one instant, collecting the sent
frames and the warnings. -/
def iterSync (E : DocEngine) (now : Nat) :
    Nat → ProviderState → ProviderState × List OutMessage × List LogEvent
  | 0, s => (s, [], [])
  | n + 1, s =>
    let r1 := sendSyncStep1 E now s
    let r2 := iterSync E now n r1.1
    (r2.1, r1.2.1 ++ r2.2.1, r1.2.2 ++ r2.2.2)

/-- Seven verified update frames, one per millisecond, each carrying a
digest that does not match the receiver's post-merge state: one burst of
consecutive hash mismatches. -/
def burstEvents : List Event :=
  (List.range 7).map fun i =>
    .incoming (1000 + i) (.syncVerified i 7 (.update [i + 1]) 123456789)

/-- The sequence-number stamps of the verified frames in a transcript, in
emission order. -/
def verifiedSeqs (outs : List OutMessage) : List Nat :=
  outs.filterMap fun m =>
    match m with
    | .syncVerified n _ _ _ => some n
    | _ => none

/-- A registered pub/sub subscription: the topic passed to
`PubSubChannel.subscribe` plus an identity for its callback. -/
structure Subscription where
  id : Nat
  topic : String
deriving DecidableEq, Repr

/-- The filter inside the handler closure built by `subscribe`
(line 66): `topic === '*' || topic === receivedTopic`. -/
def topicAccepts (t0 t : String) : Bool := t0 == "*" || t0 == t

/-- `subscribe` registers its handler at the end of the emitter's handler
list (`this.on('message', handler)`, line 70). -/
def pubsubSubscribe (subs : List Subscription) (sub : Subscription) :
    List Subscription :=
  subs ++ [sub]

/-- The unsubscribe closure returned by `subscribe` (line 71) removes that
handler from the emitter. -/
def pubsubUnsubscribe (subs : List Subscription) (i : Nat) : List Subscription :=
  subs.filter fun sub => sub.id != i

/-- `_handleMessage` (lines 76-78) emits to every registered handler in
registration order; each handler invokes its callback exactly when its
topic filter accepts the frame's topic. Returns the ids of the callbacks
invoked, in order. -/
def deliverPubSub (subs : List Subscription) (t : String) : List Nat :=
  (subs.filter fun sub => topicAccepts sub.topic t).map Subscription.id

/-- The provider state produced by receiving one mismatching verified
frame (which schedules a 10 ms backoff resync) and then disconnecting. -/
def mismatchThenDisconnect : ProviderState :=
  (disconnect
    (handleIncomingMessage E0 1000 connState (.syncVerified 0 7 (.update [1]) 999999)).1).1

/-- C3: every resync-request attempt first prunes timestamps that have
left the 10000 ms window, drops the request with a warning when 20
timestamps remain, and otherwise records the timestamp and sends exactly
one plain SYNC SyncStep1 frame; 25 instantaneous requests yield exactly 20
sent and 5 dropped. -/
theorem C3_sync_rate_limit (E : DocEngine) (now : Nat) (s : ProviderState) :
    (maxSyncRequestsPerWindow ≤ (s.syncRequestTimes.filter fun t : Nat =>
        (now : Int) - (t : Int) < (syncRequestWindowMs : Int)).length →
      sendSyncStep1 E now s =
        ({ s with syncRequestTimes := s.syncRequestTimes.filter fun t : Nat =>
            (now : Int) - (t : Int) < (syncRequestWindowMs : Int) }, [], [.rateLimited]))
    ∧ ((s.syncRequestTimes.filter fun t : Nat =>
        (now : Int) - (t : Int) < (syncRequestWindowMs : Int)).length < maxSyncRequestsPerWindow →
      s.transportConnected = true →
      sendSyncStep1 E now s =
        ({ s with syncRequestTimes := (s.syncRequestTimes.filter fun t : Nat =>
            (now : Int) - (t : Int) < (syncRequestWindowMs : Int)) ++ [now] },
         [.sync (.step1 (E.encodeStateVector s.doc))], []))
    ∧ (iterSync E0 5000 25 connState).2.1.length = 20
    ∧ (iterSync E0 5000 25 connState).2.2.count .rateLimited = 5 := by
  refine ⟨?_, ?_, by decide, by decide⟩
  · intro h
    simp only [sendSyncStep1]
    rw [if_pos h]
  · intro h hc
    simp only [sendSyncStep1]
    rw [if_neg (not_le.mpr h)]
    simp [sendRaw, hc]

/-- C3 witness: the rate-limited and the sending branch, each at a
concrete input. -/
theorem C3_sync_rate_limit_witness :
    sendSyncStep1 E0 5000 { connState with syncRequestTimes := List.replicate 20 5000 } =
      ({ connState with syncRequestTimes := List.replicate 20 5000 }, [], [.rateLimited])
    ∧ sendSyncStep1 E0 5000 connState =
      ({ connState with syncRequestTimes := [5000] },
       [.sync (.step1 (E0.encodeStateVector connState.doc))], []) := by
  constructor
  · have h := (C3_sync_rate_limit E0 5000
      { connState with syncRequestTimes := List.replicate 20 5000 }).1 (by decide)
    rw [h]
    decide
  · have h := (C3_sync_rate_limit E0 5000 connState).2.1 (by decide) (by decide)
    rw [h]
    decide

/-- C5 counterexample: receiving a verified frame with a mismatched digest
schedules a backoff resync whose timer handle the source never stores;
after `disconnect()` returns, that timer is still pending, and when it
fires it runs `_sendSyncStep1`, mutating the provider's rate-limiter
state. -/
theorem C5_counterexample :
    mismatchThenDisconnect.status = .disconnected
    ∧ mismatchThenDisconnect.pendingBackoffTimers = [10]
    ∧ (backoffFire E0 1010 mismatchThenDisconnect).1.syncRequestTimes = [1010] := by
  decide

/-- C5 amended: `disconnect()` and `destroy()` synchronously cancel the
periodic resync interval and the batch debounce timeout, whose callbacks
are then no-ops, but they leave every scheduled backoff resync timer
pending. -/
theorem C5_amended_cancellation (E : DocEngine) (now : Nat) (s : ProviderState) :
    ((disconnect s).1.syncIntervalArmed = false
      ∧ (disconnect s).1.batchTimerArmed = false
      ∧ intervalTick E now (disconnect s).1 = ((disconnect s).1, [], [])
      ∧ batchFire (disconnect s).1 = ((disconnect s).1, [])
      ∧ (disconnect s).1.pendingBackoffTimers = s.pendingBackoffTimers)
    ∧ ((destroy s).1.syncIntervalArmed = false
      ∧ (destroy s).1.batchTimerArmed = false
      ∧ intervalTick E now (destroy s).1 = ((destroy s).1, [], [])
      ∧ batchFire (destroy s).1 = ((destroy s).1, [])
      ∧ (destroy s).1.pendingBackoffTimers = s.pendingBackoffTimers) := by
  simp [disconnect, destroy, intervalTick, batchFire]

/-- C7: when the transport's connect call rejects, `connect` sets status
to error carrying the failure, rethrows it to the caller, sends nothing,
and leaves every other field unchanged — in particular it makes no second
connection attempt. -/
theorem C7_connect_failure (E : DocEngine) (now : Nat) (s : ProviderState)
    (e : String) (h : s.destroying = false) :
    connect E now s (.failure e) =
      ({ s with status := .error e }, [], [], .error e) := by
  simp [connect, h]

/-- C7 witness at a concrete state and failure. -/
theorem C7_connect_failure_witness :
    connState.destroying = false
    ∧ connect E0 0 connState (.failure "refused") =
        ({ connState with status := .error "refused" }, [], [], .error "refused") :=
  ⟨by decide, C7_connect_failure E0 0 connState "refused" (by decide)⟩

/-- C8: a pub/sub callback is invoked for a delivered frame exactly when
its subscription topic is the wildcard or equals the frame's topic;
matching callbacks run in subscription order; an unsubscribed callback is
never invoked again. -/
theorem C8_pubsub_dispatch (subs : List Subscription) (t : String) (i : Nat) :
    (i ∈ deliverPubSub subs t ↔
      ∃ sub ∈ subs, sub.id = i ∧ (sub.topic = "*" ∨ sub.topic = t))
    ∧ (deliverPubSub subs t).Sublist (subs.map Subscription.id)
    ∧ i ∉ deliverPubSub (pubsubUnsubscribe subs i) t := by
  refine ⟨?_, ?_, ?_⟩
  · simp only [deliverPubSub, List.mem_map, List.mem_filter, topicAccepts,
      Bool.or_eq_true, beq_iff_eq]
    constructor
    · rintro ⟨sub, ⟨hmem, hacc⟩, hid⟩
      exact ⟨sub, hmem, hid, hacc⟩
    · rintro ⟨sub, hmem, hid, hacc⟩
      exact ⟨sub, ⟨hmem, hacc⟩, hid⟩
  · exact (List.filter_sublist subs).map Subscription.id
  · simp only [deliverPubSub, pubsubUnsubscribe, List.mem_map, List.mem_filter]
    rintro ⟨sub, ⟨hmem, -⟩, hid⟩
    simp only [bne_iff_ne, ne_eq] at hmem
    exact hmem.2 hid

theorem getSeq_setSeq (m : List (Nat × Nat)) (j v k : Nat) :
    getSeq (setSeq m j v) k = if k = j then (v : Int) else getSeq m k := by
  by_cases h : k = j
  · simp [getSeq, setSeq, List.lookup, h]
  · have hb : (k == j) = false := beq_eq_false_iff_ne.mpr h
    simp [getSeq, setSeq, List.lookup, hb, h]

theorem handle_remoteSeq_mono (E : DocEngine) (now : Nat) (s : ProviderState)
    (m : InMessage) (k : Nat) :
    getSeq s.remoteSeqNums k ≤ getSeq (handleIncomingMessage E now s m).1.remoteSeqNums k := by
  cases m with
  | sync p =>
    simp only [handleIncomingMessage]
    split <;> simp
  | awareness payload => simp [handleIncomingMessage]
  | pubsub t payload => simp [handleIncomingMessage]
  | unknown tag => simp [handleIncomingMessage]
  | syncVerified seqNum sender p eh =>
    simp only [handleIncomingMessage]
    by_cases hle : (seqNum : Int) ≤ getSeq s.remoteSeqNums sender
    · rw [if_pos hle]
    · rw [if_neg hle]
      have hlt : getSeq s.remoteSeqNums sender < (seqNum : Int) := not_le.mp hle
      split
      · simp only [getSeq_setSeq]
        by_cases hk : k = sender
        · subst hk
          simp only [if_pos rfl]
          exact le_of_lt hlt
        · simp [hk]
      · split <;>
          · simp only [getSeq_setSeq]
            by_cases hk : k = sender
            · subst hk
              simp only [if_pos rfl]
              exact le_of_lt hlt
            · simp [hk]

theorem step_remoteSeq_mono (E : DocEngine) (s : ProviderState) (e : Event) (k : Nat) :
    getSeq s.remoteSeqNums k ≤ getSeq (step E s e).1.remoteSeqNums k := by
  cases e with
  | incoming now m => exact handle_remoteSeq_mono E now s m k
  | localUpdate u =>
    simp only [step, localUpdate, sendUpdate]
    split <;> split <;> simp
  | batchFire =>
    simp only [step, batchFire, sendUpdate]
    split <;> [skip; simp]
    split <;> [split <;> simp; simp]
  | intervalTick now =>
    simp only [step, intervalTick, sendSyncStep1]
    split <;> [split <;> [split <;> simp; simp]; simp]
  | backoffFire now =>
    simp only [step, backoffFire]
    split
    · simp
    · simp only [sendSyncStep1]
      split <;> simp
  | syncNowEv now =>
    simp only [step, syncNow, sendUpdate, sendSyncStep1]
    split_ifs <;> simp
  | connectEv now outcome =>
    cases outcome with
    | failure e =>
      simp only [step, connect]
      split_ifs <;> simp
    | ok =>
      simp only [step, connect, sendSyncStep1]
      split_ifs <;> simp
  | disconnectEv => simp [step, disconnect]
  | destroyEv => simp [step, destroy, disconnect]

theorem run_remoteSeq_mono (E : DocEngine) (events : List Event)
    (s : ProviderState) (k : Nat) :
    getSeq s.remoteSeqNums k ≤ getSeq (run E s events).1.remoteSeqNums k := by
  induction events generalizing s with
  | nil => simp [run]
  | cons e es ih =>
    have h1 := step_remoteSeq_mono E s e k
    have h2 := ih (step E s e).1
    simp only [run]
    exact le_trans h1 h2

/-- C2: a verified frame whose sequence number is not beyond the last seen
one is consumed without any effect (no merge, tracker unchanged); a fresh
frame is merged and recorded, with a gap of `seqNum - lastSeen - 1`
messages logged when the tracker held a value and the frame overshoots it
by more than one; the recorded per-sender value never decreases over any
sequence of events. -/
theorem C2_sequence_tracking (E : DocEngine) (now : Nat) (s : ProviderState)
    (seqNum sender : Nat) (p : SyncPayload) (eh : Int) :
    ((seqNum : Int) ≤ getSeq s.remoteSeqNums sender →
      handleIncomingMessage E now s (.syncVerified seqNum sender p eh)
        = (s, [], [.duplicateSeq sender seqNum (getSeq s.remoteSeqNums sender)]))
    ∧ (getSeq s.remoteSeqNums sender < (seqNum : Int) →
      (handleIncomingMessage E now s (.syncVerified seqNum sender p eh)).1.doc
          = (readSyncMessage E s.doc p).1
        ∧ getSeq (handleIncomingMessage E now s
            (.syncVerified seqNum sender p eh)).1.remoteSeqNums sender = (seqNum : Int)
        ∧ (0 ≤ getSeq s.remoteSeqNums sender ∧
            getSeq s.remoteSeqNums sender + 1 < (seqNum : Int) →
            LogEvent.seqGap sender ((seqNum : Int) - getSeq s.remoteSeqNums sender - 1)
              ∈ (handleIncomingMessage E now s (.syncVerified seqNum sender p eh)).2.2))
    ∧ (∀ (events : List Event) (k : Nat),
        getSeq s.remoteSeqNums k ≤ getSeq (run E s events).1.remoteSeqNums k) := by
  refine ⟨?_, ?_, fun events k => run_remoteSeq_mono E events s k⟩
  · intro hdup
    simp only [handleIncomingMessage]
    rw [if_pos hdup]
  · intro hfresh
    have hle : ¬ ((seqNum : Int) ≤ getSeq s.remoteSeqNums sender) := not_le.mpr hfresh
    refine ⟨?_, ?_, ?_⟩
    · simp only [handleIncomingMessage]
      rw [if_neg hle]
      split
      · simp
      · split <;> simp
    · simp only [handleIncomingMessage]
      rw [if_neg hle]
      split
      · simp [getSeq_setSeq]
      · split <;> simp [getSeq_setSeq]
    · intro hgap
      simp only [handleIncomingMessage]
      rw [if_neg hle, if_pos hgap]
      split
      · simp
      · split <;> simp

/-- C2 witness: a duplicate frame (seq 3 against last seen 5) leaves the
state untouched; a fresh frame with a gap (seq 9 against last seen 5) is
merged, recorded, and logged with a gap of 3. -/
theorem C2_sequence_tracking_witness :
    (handleIncomingMessage E0 0 { connState with remoteSeqNums := [(7, 5)] }
        (.syncVerified 3 7 (.update [2]) 0)
      = ({ connState with remoteSeqNums := [(7, 5)] }, [], [.duplicateSeq 7 3 5]))
    ∧ ((handleIncomingMessage E0 0 { connState with remoteSeqNums := [(7, 5)] }
          (.syncVerified 9 7 (.update [2]) 0)).1.doc = [2]
      ∧ getSeq (handleIncomingMessage E0 0 { connState with remoteSeqNums := [(7, 5)] }
          (.syncVerified 9 7 (.update [2]) 0)).1.remoteSeqNums 7 = 9
      ∧ LogEvent.seqGap 7 3 ∈ (handleIncomingMessage E0 0
          { connState with remoteSeqNums := [(7, 5)] }
          (.syncVerified 9 7 (.update [2]) 0)).2.2)
    ∧ getSeq ({ connState with remoteSeqNums := [(7, 5)] }).remoteSeqNums 7 ≤
        getSeq (run E0 { connState with remoteSeqNums := [(7, 5)] } []).1.remoteSeqNums 7 := by
  have h := C2_sequence_tracking E0 0 { connState with remoteSeqNums := [(7, 5)] }
    3 7 (.update [2]) 0
  have h2 := C2_sequence_tracking E0 0 { connState with remoteSeqNums := [(7, 5)] }
    9 7 (.update [2]) 0
  refine ⟨?_, ?_, h2.2.2 [] 7⟩
  · have := h.1 (by decide)
    rw [this]
    decide
  · have hf := h2.2.1 (by decide)
    refine ⟨?_, ?_, hf.2.2 (by decide)⟩
    · rw [hf.1]
      decide
    · rw [hf.2.1]
      decide

/-- C1: on a fresh verified frame whose digest mismatches the local
post-merge digest, the mismatch counter becomes `k` (1 when more than
10000 ms elapsed since the previous mismatch, the old counter plus one
otherwise), the mismatch time is recorded, and a resync request is
scheduled after `min 10000 (10 * 5 ^ (k - 1))` ms; a matching digest
resets the counter to 0; a burst of seven consecutive mismatches yields
delays 10, 50, 250, 1250, 6250, 10000, 10000. -/
theorem C1_backoff_schedule (E : DocEngine) (now : Nat) (s : ProviderState)
    (seqNum sender : Nat) (p : SyncPayload) (eh : Int)
    (hfresh : getSeq s.remoteSeqNums sender < (seqNum : Int)) :
    (computeDocHash (readSyncMessage E s.doc p).1 ≠ eh →
      (handleIncomingMessage E now s
          (.syncVerified seqNum sender p eh)).1.hashMismatchCount
        = (if (10000 : Int) < (now : Int) - (s.lastHashMismatchTime : Int) then 1
            else s.hashMismatchCount + 1)
      ∧ (handleIncomingMessage E now s
          (.syncVerified seqNum sender p eh)).1.lastHashMismatchTime = now
      ∧ (handleIncomingMessage E now s
          (.syncVerified seqNum sender p eh)).1.pendingBackoffTimers
        = s.pendingBackoffTimers ++
          [min 10000 (10 * 5 ^
            ((if (10000 : Int) < (now : Int) - (s.lastHashMismatchTime : Int) then 1
              else s.hashMismatchCount + 1) - 1))])
    ∧ (computeDocHash (readSyncMessage E s.doc p).1 = eh →
      (handleIncomingMessage E now s
          (.syncVerified seqNum sender p eh)).1.hashMismatchCount = 0)
    ∧ (run E0 (initState [] 42 defaultOptions) burstEvents).1.pendingBackoffTimers
        = [10, 50, 250, 1250, 6250, 10000, 10000] := by
  have hle : ¬ ((seqNum : Int) ≤ getSeq s.remoteSeqNums sender) := not_le.mpr hfresh
  refine ⟨?_, ?_, by decide⟩
  · intro hm
    simp only [handleIncomingMessage]
    rw [if_neg hle, if_pos hm]
    refine ⟨rfl, rfl, rfl⟩
  · intro hmatch
    simp only [handleIncomingMessage]
    rw [if_neg hle, if_neg (fun hc => hc hmatch)]
    split <;> rfl

/-- C1 witness: the first mismatch in a burst sets the counter to 1 and
schedules a 10 ms resync; a matching digest resets the counter to 0. -/
theorem C1_backoff_schedule_witness :
    ((handleIncomingMessage E0 1000 connState
        (.syncVerified 0 7 (.update [1]) 999999)).1.hashMismatchCount
      = (if (10000 : Int) < (1000 : Int) - ((connState.lastHashMismatchTime : Nat) : Int)
          then 1 else connState.hashMismatchCount + 1)
      ∧ (handleIncomingMessage E0 1000 connState
          (.syncVerified 0 7 (.update [1]) 999999)).1.lastHashMismatchTime = 1000)
    ∧ (handleIncomingMessage E0 1000 connState
        (.syncVerified 0 7 (.update [1]) 1)).1.hashMismatchCount = 0 := by
  have h1 := C1_backoff_schedule E0 1000 connState 0 7 (.update [1]) 999999 (by decide)
  have h2 := C1_backoff_schedule E0 1000 connState 0 7 (.update [1]) 1 (by decide)
  exact ⟨⟨(h1.1 (by decide)).1, (h1.1 (by decide)).2.1⟩, h2.2.1 (by decide)⟩

theorem handle_synced_mono (E : DocEngine) (now : Nat) (s : ProviderState)
    (m : InMessage) (h : s.synced = true) :
    (handleIncomingMessage E now s m).1.synced = true := by
  cases m with
  | sync p => cases p <;> simp [handleIncomingMessage, readSyncMessage, h]
  | awareness payload => simpa [handleIncomingMessage] using h
  | pubsub t payload => simpa [handleIncomingMessage] using h
  | unknown tag => simpa [handleIncomingMessage] using h
  | syncVerified seqNum sender p eh =>
    cases p <;>
      · simp only [handleIncomingMessage, readSyncMessage]
        split_ifs <;> simp_all

/-- C9: once the synced flag is true it is preserved by every event other
than `disconnect` and `destroy`, and those two always reset it to false. -/
theorem C9_synced_latch (E : DocEngine) (s : ProviderState) (e : Event) :
    (s.synced = true → e ≠ .disconnectEv → e ≠ .destroyEv →
      (step E s e).1.synced = true)
    ∧ (step E s .disconnectEv).1.synced = false
    ∧ (step E s .destroyEv).1.synced = false := by
  refine ⟨?_, by simp [step, disconnect], by simp [step, destroy, disconnect]⟩
  intro h hd hdd
  cases e with
  | incoming now m => exact handle_synced_mono E now s m h
  | localUpdate u =>
    simp only [step, localUpdate, sendUpdate]
    split_ifs <;> simpa using h
  | batchFire =>
    cases hpu : s.pendingUpdate with
    | none =>
      simp only [step, batchFire, sendUpdate, hpu]
      split_ifs <;> simpa using h
    | some p =>
      simp only [step, batchFire, sendUpdate, hpu]
      split_ifs <;> simpa using h
  | intervalTick now =>
    simp only [step, intervalTick, sendSyncStep1]
    split_ifs <;> simpa using h
  | backoffFire now =>
    simp only [step, backoffFire]
    split
    · simpa using h
    · simp only [sendSyncStep1]
      split_ifs <;> simpa using h
  | syncNowEv now =>
    simp only [step, syncNow, sendUpdate, sendSyncStep1]
    split_ifs <;> simpa using h
  | connectEv now outcome =>
    cases outcome with
    | failure e =>
      simp only [step, connect]
      split_ifs <;> simpa using h
    | ok =>
      simp only [step, connect, sendSyncStep1]
      split_ifs <;> simpa using h
  | disconnectEv => exact absurd rfl hd
  | destroyEv => exact absurd rfl hdd

/-- C9 witness: a synced state stays synced across an inbound mismatching
frame, and disconnect resets it. -/
theorem C9_synced_latch_witness :
    (step E0 { connState with synced := true }
      (.incoming 0 (.syncVerified 0 7 (.update [1]) 999999))).1.synced = true
    ∧ (step E0 { connState with synced := true } .disconnectEv).1.synced = false := by
  have h := C9_synced_latch E0 { connState with synced := true }
    (.incoming 0 (.syncVerified 0 7 (.update [1]) 999999))
  exact ⟨h.1 (by decide) (by decide) (by decide), h.2.1⟩

/-- C4: starting from an unsynced state, the synced flag can become true
only by handling an inbound plain sync frame whose payload is SyncStep2,
or an inbound verified frame whose payload is SyncStep2 and whose attached
digest equals the locally computed post-merge digest; a verified SyncStep2
frame with a mismatched digest never changes the flag. -/
theorem C4_synced_needs_verified_step2 (E : DocEngine) (s : ProviderState) (e : Event) :
    (s.synced = false → (step E s e).1.synced = true →
      ∃ now, (∃ u, e = .incoming now (.sync (.step2 u)))
        ∨ ∃ seqNum sender u eh,
            e = .incoming now (.syncVerified seqNum sender (.step2 u) eh)
            ∧ computeDocHash (E.applyUpdate s.doc u) = eh)
    ∧ ∀ now seqNum sender u eh,
        computeDocHash (E.applyUpdate s.doc u) ≠ eh →
        (handleIncomingMessage E now s
          (.syncVerified seqNum sender (.step2 u) eh)).1.synced = s.synced := by
  constructor
  · intro h0 h1
    cases e with
    | incoming now m =>
      cases m with
      | sync p =>
        cases p with
        | step1 sv => simp [step, handleIncomingMessage, readSyncMessage, h0] at h1
        | step2 u => exact ⟨now, .inl ⟨u, rfl⟩⟩
        | update u => simp [step, handleIncomingMessage, readSyncMessage, h0] at h1
      | awareness payload => simp [step, handleIncomingMessage, h0] at h1
      | pubsub t payload => simp [step, handleIncomingMessage, h0] at h1
      | unknown tag => simp [step, handleIncomingMessage, h0] at h1
      | syncVerified seqNum sender p eh =>
        cases p with
        | step1 sv =>
          simp only [step, handleIncomingMessage, readSyncMessage] at h1
          split_ifs at h1 <;> simp_all
        | step2 u =>
          refine ⟨now, .inr ⟨seqNum, sender, u, eh, rfl, ?_⟩⟩
          by_cases hm : computeDocHash (E.applyUpdate s.doc u) = eh
          · exact hm
          · exfalso
            simp only [step, handleIncomingMessage, readSyncMessage] at h1
            split_ifs at h1 <;> simp_all
        | update u =>
          simp only [step, handleIncomingMessage, readSyncMessage] at h1
          split_ifs at h1 <;> simp_all
    | localUpdate u =>
      simp only [step, localUpdate, sendUpdate] at h1
      split_ifs at h1 <;> simp_all
    | batchFire =>
      cases hpu : s.pendingUpdate with
      | none =>
        simp only [step, batchFire, sendUpdate, hpu] at h1
        split_ifs at h1 <;> simp_all
      | some p =>
        simp only [step, batchFire, sendUpdate, hpu] at h1
        split_ifs at h1 <;> simp_all
    | intervalTick now =>
      simp only [step, intervalTick, sendSyncStep1] at h1
      split_ifs at h1 <;> simp_all
    | backoffFire now =>
      simp only [step, backoffFire] at h1
      split at h1
      · simp_all
      · simp only [sendSyncStep1] at h1
        split_ifs at h1 <;> simp_all
    | syncNowEv now =>
      simp only [step, syncNow, sendUpdate, sendSyncStep1] at h1
      split_ifs at h1 <;> simp_all
    | connectEv now outcome =>
      cases outcome with
      | failure e =>
        simp only [step, connect] at h1
        split_ifs at h1 <;> simp_all
      | ok =>
        simp only [step, connect, sendSyncStep1] at h1
        split_ifs at h1 <;> simp_all
    | disconnectEv => simp [step, disconnect] at h1
    | destroyEv => simp [step, destroy, disconnect] at h1
  · intro now seqNum sender u eh hm
    by_cases hle : (seqNum : Int) ≤ getSeq s.remoteSeqNums sender
    · simp only [handleIncomingMessage]
      rw [if_pos hle]
    · simp only [handleIncomingMessage, readSyncMessage]
      rw [if_neg hle, if_pos (by simpa [readSyncMessage] using hm)]

/-- C4 witness: a verified SyncStep2 frame with a matching digest flips
synced to true; with a mismatched digest it does not. -/
theorem C4_synced_needs_verified_step2_witness :
    (∃ now, (∃ u, Event.incoming 0 (.syncVerified 0 7 (.step2 [1]) 1)
          = .incoming now (.sync (.step2 u)))
      ∨ ∃ seqNum sender u eh,
          Event.incoming 0 (.syncVerified 0 7 (.step2 [1]) 1)
            = .incoming now (.syncVerified seqNum sender (.step2 u) eh)
          ∧ computeDocHash (E0.applyUpdate connState.doc u) = eh)
    ∧ (handleIncomingMessage E0 0 connState
        (.syncVerified 0 7 (.step2 [1]) 999999)).1.synced = connState.synced := by
  have h := C4_synced_needs_verified_step2 E0 connState
    (.incoming 0 (.syncVerified 0 7 (.step2 [1]) 1))
  exact ⟨h.1 (by decide) (by decide), h.2 0 0 7 [1] 999999 (by decide)⟩

/-- C6: `syncNow` on a disconnected transport warns and changes nothing;
on a connected transport (with a non-empty encoded state and the rate
limiter below its cap) it sends the full document state as an update, then
one SyncStep1 resync request, then one presence broadcast. -/
theorem C6_syncNow (E : DocEngine) (now : Nat) (s : ProviderState) :
    (s.transportConnected = false → syncNow E now s = (s, [], [.notConnectedWarn]))
    ∧ (s.transportConnected = true → 0 < s.doc.length →
      (s.syncRequestTimes.filter fun t : Nat =>
          (now : Int) - (t : Int) < (syncRequestWindowMs : Int)).length
        < maxSyncRequestsPerWindow →
      (syncNow E now s).2.1 =
        [(if s.verifyUpdates then
            OutMessage.syncVerified s.localSeqNum s.clientID (.update s.doc)
              (computeDocHash s.doc)
          else .sync (.update s.doc)),
          .sync (.step1 (E.encodeStateVector s.doc)),
          .awareness [s.clientID]]) := by
  constructor
  · intro h
    simp [syncNow, h]
  · intro hc hd hr
    by_cases hv : s.verifyUpdates = true
    · simp [syncNow, sendUpdate, sendSyncStep1, broadcastAwareness, sendRaw,
        hc, hd, hv, not_le.mpr hr]
    · simp [syncNow, sendUpdate, sendSyncStep1, broadcastAwareness, sendRaw,
        hc, hd, hv, not_le.mpr hr]

/-- C6 witness: the warning branch on a disconnected provider and the
three-frame transcript on a connected one. -/
theorem C6_syncNow_witness :
    syncNow E0 0 (initState [3, 1] 42 defaultOptions)
      = (initState [3, 1] 42 defaultOptions, [], [.notConnectedWarn])
    ∧ (syncNow E0 0 { initState [3, 1] 42 defaultOptions with transportConnected := true }).2.1
      = [(if ({ initState [3, 1] 42 defaultOptions with
              transportConnected := true } : ProviderState).verifyUpdates then
            OutMessage.syncVerified 0 42 (.update [3, 1]) (computeDocHash [3, 1])
          else .sync (.update [3, 1])),
          .sync (.step1 (E0.encodeStateVector [3, 1])),
          .awareness [42]] := by
  have h1 := (C6_syncNow E0 0 (initState [3, 1] 42 defaultOptions)).1 (by decide)
  have h2 := (C6_syncNow E0 0
    { initState [3, 1] 42 defaultOptions with transportConnected := true }).2
    (by decide) (by decide) (by decide)
  exact ⟨h1, h2⟩

theorem verifiedSeqs_append (a b : List OutMessage) :
    verifiedSeqs (a ++ b) = verifiedSeqs a ++ verifiedSeqs b := by
  simp [verifiedSeqs]

theorem verifiedSeqs_sendRaw_sync (s : ProviderState) (p : SyncPayload) :
    verifiedSeqs (sendRaw s (.sync p)) = [] := by
  simp only [sendRaw]
  split <;> simp [verifiedSeqs]

theorem verifiedSeqs_broadcastAwareness (s : ProviderState) (clients : List Nat) :
    verifiedSeqs (broadcastAwareness s clients) = [] := by
  simp only [broadcastAwareness, sendRaw]
  split_ifs <;> simp [verifiedSeqs]

theorem handle_no_verified_out (E : DocEngine) (now : Nat) (s : ProviderState)
    (m : InMessage) :
    verifiedSeqs (handleIncomingMessage E now s m).2.1 = []
    ∧ (handleIncomingMessage E now s m).1.localSeqNum = s.localSeqNum := by
  cases m with
  | sync p =>
    cases p <;>
      · simp only [handleIncomingMessage, readSyncMessage]
        split_ifs <;> simp [verifiedSeqs, sendRaw]
  | awareness payload => simp [handleIncomingMessage, verifiedSeqs]
  | pubsub t payload => simp [handleIncomingMessage, verifiedSeqs]
  | unknown tag => simp [handleIncomingMessage, verifiedSeqs]
  | syncVerified seqNum sender p eh =>
    cases p <;>
      · simp only [handleIncomingMessage, readSyncMessage]
        split_ifs <;> simp [verifiedSeqs, sendRaw]

theorem sendSyncStep1_no_verified (E : DocEngine) (now : Nat) (s : ProviderState) :
    verifiedSeqs (sendSyncStep1 E now s).2.1 = []
    ∧ (sendSyncStep1 E now s).1.localSeqNum = s.localSeqNum := by
  simp only [sendSyncStep1]
  split_ifs <;> simp [verifiedSeqs, sendRaw]

theorem step_verifiedSeqs (E : DocEngine) (s : ProviderState) (e : Event) :
    ∃ k, verifiedSeqs (step E s e).2.1 = List.range' s.localSeqNum k
      ∧ (step E s e).1.localSeqNum = s.localSeqNum + k := by
  cases e with
  | incoming now m =>
    refine ⟨0, ?_, ?_⟩
    · simpa [step] using (handle_no_verified_out E now s m).1
    · simpa [step] using (handle_no_verified_out E now s m).2
  | localUpdate u =>
    by_cases hb : 0 < s.batchUpdates
    · exact ⟨0, by simp [step, localUpdate, hb, verifiedSeqs], by simp [step, localUpdate, hb]⟩
    · by_cases hv : s.verifyUpdates = true
      · refine ⟨1, ?_, ?_⟩ <;> simp [step, localUpdate, sendUpdate, hb, hv, verifiedSeqs]
      · refine ⟨0, ?_, ?_⟩ <;> simp [step, localUpdate, sendUpdate, hb, hv, verifiedSeqs]
  | batchFire =>
    cases hpu : s.pendingUpdate with
    | none =>
      refine ⟨0, ?_, ?_⟩ <;>
        · simp only [step, batchFire, hpu]
          split_ifs <;> simp [verifiedSeqs]
    | some p =>
      by_cases hv : s.verifyUpdates = true
      · by_cases hb : s.batchTimerArmed = true
        · refine ⟨1, ?_, ?_⟩ <;> simp [step, batchFire, sendUpdate, hpu, hv, hb, verifiedSeqs]
        · refine ⟨0, ?_, ?_⟩ <;> simp [step, batchFire, sendUpdate, hpu, hv, hb, verifiedSeqs]
      · refine ⟨0, ?_, ?_⟩ <;>
          · simp only [step, batchFire, sendUpdate, hpu]
            split_ifs <;> simp_all [verifiedSeqs]
  | intervalTick now =>
    refine ⟨0, ?_, ?_⟩
    · simp only [step, intervalTick]
      split_ifs
      · rw [List.range'_zero]
        exact (sendSyncStep1_no_verified E now s).1
      · simp [verifiedSeqs]
      · simp [verifiedSeqs]
    · simp only [step, intervalTick]
      split_ifs
      · rw [Nat.add_zero]
        exact (sendSyncStep1_no_verified E now s).2
      · simp
      · simp
  | backoffFire now =>
    cases hpb : s.pendingBackoffTimers with
    | nil =>
      exact ⟨0, by simp [step, backoffFire, hpb, verifiedSeqs],
        by simp [step, backoffFire, hpb]⟩
    | cons d rest =>
      refine ⟨0, ?_, ?_⟩
      · simp only [step, backoffFire, hpb]
        rw [List.range'_zero]
        exact (sendSyncStep1_no_verified E now _).1
      · simp only [step, backoffFire, hpb]
        rw [Nat.add_zero]
        exact (sendSyncStep1_no_verified E now _).2
  | syncNowEv now =>
    by_cases hc : s.transportConnected = true
    · have hnc : ¬ (¬ s.transportConnected = true) := by simp [hc]
      by_cases hd : 0 < s.doc.length
      · refine ⟨if s.verifyUpdates then 1 else 0, ?_, ?_⟩
        · simp only [step, syncNow, if_neg hnc, if_pos hd, verifiedSeqs_append,
            verifiedSeqs_broadcastAwareness, (sendSyncStep1_no_verified E now _).1,
            List.append_nil]
          by_cases hv : s.verifyUpdates = true <;>
            simp [sendUpdate, hv, verifiedSeqs]
        · simp only [step, syncNow, if_neg hnc, if_pos hd,
            (sendSyncStep1_no_verified E now _).2]
          by_cases hv : s.verifyUpdates = true <;>
            simp [sendUpdate, hv]
      · refine ⟨0, ?_, ?_⟩
        · simp only [step, syncNow, if_neg hnc, if_neg hd, verifiedSeqs_append,
            verifiedSeqs_broadcastAwareness, (sendSyncStep1_no_verified E now _).1,
            List.append_nil]
          simp [verifiedSeqs]
        · simp only [step, syncNow, if_neg hnc, if_neg hd,
            (sendSyncStep1_no_verified E now _).2]
          simp
    · exact ⟨0, by simp [step, syncNow, hc, verifiedSeqs], by simp [step, syncNow, hc]⟩
  | connectEv now outcome =>
    cases outcome with
    | failure e =>
      refine ⟨0, ?_, ?_⟩ <;>
        · simp only [step, connect]
          split_ifs <;> simp [verifiedSeqs]
    | ok =>
      by_cases hdes : s.destroying = true
      · exact ⟨0, by simp [step, connect, hdes, verifiedSeqs], by simp [step, connect, hdes]⟩
      · refine ⟨0, ?_, ?_⟩
        · simp only [step, connect, if_neg hdes, verifiedSeqs_append,
            verifiedSeqs_broadcastAwareness, (sendSyncStep1_no_verified E now _).1,
            List.append_nil, List.nil_append]
          simp
        · simp only [step, connect, if_neg hdes]
          split_ifs <;>
            · rw [Nat.add_zero]
              exact (sendSyncStep1_no_verified E now _).2
  | disconnectEv =>
    refine ⟨0, ?_, ?_⟩
    · simp only [step, disconnect, verifiedSeqs_broadcastAwareness]
      simp
    · simp [step, disconnect]
  | destroyEv =>
    refine ⟨0, ?_, ?_⟩
    · simp only [step, destroy, disconnect, verifiedSeqs_broadcastAwareness]
      simp
    · simp [step, destroy, disconnect]

theorem run_verifiedSeqs (E : DocEngine) (events : List Event) (s : ProviderState) :
    ∃ n, verifiedSeqs (run E s events).2 = List.range' s.localSeqNum n
      ∧ (run E s events).1.localSeqNum = s.localSeqNum + n := by
  induction events generalizing s with
  | nil => exact ⟨0, by simp [run, verifiedSeqs], by simp [run]⟩
  | cons e es ih =>
    obtain ⟨k, hk1, hk2⟩ := step_verifiedSeqs E s e
    obtain ⟨n, hn1, hn2⟩ := ih (step E s e).1
    refine ⟨k + n, ?_, ?_⟩
    · simp only [run, verifiedSeqs_append, hk1]
      rw [hn1, hk2]
      have := List.range'_append s.localSeqNum k n 1
      simp only [one_mul] at this
      rw [this, Nat.add_comm n k]
    · simp only [run]
      rw [hn2, hk2, Nat.add_assoc]

/-- C10: over any event sequence the verified frames a provider emits are
stamped with consecutive sequence numbers starting at the current counter,
and the counter advances by exactly the number of verified frames sent; a
fresh instance starts at 0, and neither `disconnect` nor a later `connect`
resets the counter. -/
theorem C10_seq_stamps (E : DocEngine) (s : ProviderState) (events : List Event) :
    (∃ n, verifiedSeqs (run E s events).2 = List.range' s.localSeqNum n
        ∧ (run E s events).1.localSeqNum = s.localSeqNum + n)
    ∧ (∀ doc cid opts, (initState doc cid opts).localSeqNum = 0)
    ∧ (step E s .disconnectEv).1.localSeqNum = s.localSeqNum
    ∧ (∀ now outcome, (step E s (.connectEv now outcome)).1.localSeqNum = s.localSeqNum) := by
  refine ⟨run_verifiedSeqs E events s, fun doc cid opts => rfl, ?_, ?_⟩
  · simp [step, disconnect]
  · intro now outcome
    cases outcome with
    | failure e =>
      simp only [step, connect]
      split_ifs <;> simp
    | ok =>
      simp only [step, connect, sendSyncStep1]
      split_ifs <;> simp

end YGeneric
